import Mathlib

/-!
Verification of the neighborhoods generation pipeline.

This file is a shallow embedding, in Lean, of the core operations of
src/neighborhoods_generation.py: the tabular join engine built on the
pandas merge function, the nearest-geometry assignment built on the
pandas idxmin function, the group-and-union dissolve step, and the
derived-metric computations (rent-to-value ratio, area in square miles,
population parsing, population density).  Machine floats are modelled by
exact rationals extended with NaN and signed infinities where the IEEE
special values matter; Python exceptions are modelled by an Except monad.
-/

/-- Python exception kinds raised by the pipeline code. -/
inductive PyError
  | typeError
  | keyError
  | valueError
deriving DecidableEq

instance {ε α : Type} [DecidableEq ε] [DecidableEq α] : DecidableEq (Except ε α) := fun x y =>
  match x, y with
  | Except.ok a, Except.ok b =>
    if h : a = b then Decidable.isTrue (h ▸ rfl)
    else Decidable.isFalse (fun hh => h (Except.ok.inj hh))
  | Except.error a, Except.error b =>
    if h : a = b then Decidable.isTrue (h ▸ rfl)
    else Decidable.isFalse (fun hh => h (Except.error.inj hh))
  | Except.ok _, Except.error _ => Decidable.isFalse (fun hh => Except.noConfusion hh)
  | Except.error _, Except.ok _ => Decidable.isFalse (fun hh => Except.noConfusion hh)

/-- A cell of a pandas DataFrame: a string, an integer, or the missing value NaN. -/
inductive Cell
  | str (s : String)
  | int (n : Int)
  | na
deriving DecidableEq

/-- A pandas DataFrame: named columns and rows of cells. -/
structure DataFrame where
  cols : List String
  rows : List (List Cell)
deriving DecidableEq

/-- Position of a column label in a column list (first match), modelling
pandas label lookup. -/
def colIndex? : List String → String → Option Nat
  | [], _ => none
  | c :: cs, t => if c = t then some 0 else (colIndex? cs t).map (fun i => i + 1)

/-- Cell of a row at an optional position; an absent position reads as NaN. -/
def cellAt (row : List Cell) (i : Option Nat) : Cell :=
  match i with
  | some j => row.getD j Cell.na
  | none => Cell.na

/-- Join-key equality: NaN compares unequal to everything, as in the pandas
merge semantics for missing keys. -/
def cellEq (a b : Cell) : Bool :=
  match a, b with
  | Cell.na, _ => false
  | _, Cell.na => false
  | a, b => decide (a = b)

/-- Merge strategy of the pandas merge function.  The pipeline uses the
left strategy inside merge_dataframes and the default inner strategy for
the boundary join of line 305. -/
inductive How
  | inner
  | left
deriving DecidableEq

/-- Key match between a left row and a right row over paired key columns. -/
def rowsKeyMatch (l r : DataFrame) (left_on right_on : List String)
    (lrow rrow : List Cell) : Bool :=
  (left_on.zip right_on).all (fun kk =>
    cellEq (cellAt lrow (colIndex? l.cols kk.1)) (cellAt rrow (colIndex? r.cols kk.2)))

/-- The pandas merge function: left or inner join on the given key columns.
Overlapping non-key column names receive the respective suffix; a key pair
whose two names coincide is coalesced into a single column taken from the
left side (pandas drops the right copy of such a key); a missing key column
raises KeyError. -/
def pdMerge (how : How) (l r : DataFrame) (left_on right_on : List String)
    (suf : String × String) : Except PyError DataFrame :=
  if (∀ c ∈ left_on, c ∈ l.cols) ∧ (∀ c ∈ right_on, c ∈ r.cols) then
    let coal := (left_on.zip right_on).filterMap
      (fun kk => if kk.1 = kk.2 then some kk.1 else none)
    let lCols := l.cols.map (fun c => if c ∈ r.cols ∧ c ∉ coal then c ++ suf.1 else c)
    let rKeep := r.cols.filter (fun c => decide (c ∉ coal))
    let rCols := rKeep.map (fun c => if c ∈ l.cols ∧ c ∉ coal then c ++ suf.2 else c)
    let rProj := fun (rrow : List Cell) => rKeep.map (fun c => cellAt rrow (colIndex? r.cols c))
    let rows := l.rows.flatMap (fun lrow =>
      let ms := r.rows.filter (fun rrow => rowsKeyMatch l r left_on right_on lrow rrow)
      match how with
      | How.inner => ms.map (fun rrow => lrow ++ rProj rrow)
      | How.left =>
        if ms.isEmpty then [lrow ++ List.replicate rKeep.length Cell.na]
        else ms.map (fun rrow => lrow ++ rProj rrow))
    Except.ok { cols := lCols ++ rCols, rows := rows }
  else Except.error PyError.keyError

/-- The pandas column-drop operation: removes the named columns from the
frame, raising KeyError when any of them is absent. -/
def dropColumns (df : DataFrame) (cs : List String) : Except PyError DataFrame :=
  if ∀ c ∈ cs, c ∈ df.cols then
    Except.ok
      { cols := df.cols.filter (fun c => decide (c ∉ cs)),
        rows := df.rows.map (fun row =>
          (df.cols.zip row).filterMap (fun cv => if cv.1 ∈ cs then none else some cv.2)) }
  else Except.error PyError.keyError

/-- The rename step of merge_dataframes: when a new name is given, every
column sharing the name of the last column is renamed to it. -/
def renameLast (df : DataFrame) (new : Option String) : DataFrame :=
  match new with
  | none => df
  | some n =>
    match df.cols.getLast? with
    | none => df
    | some last => { df with cols := df.cols.map (fun c => if c = last then n else c) }

/-- Row de-duplication keeping the first occurrence of each key value at
cell position i, as in the pandas drop_duplicates operation (NaN keys are
treated as equal duplicates, matching pandas). -/
def dedupRows (i : Nat) (seen : List Cell) : List (List Cell) → List (List Cell)
  | [] => []
  | row :: rest =>
    let v := row.getD i Cell.na
    if v ∈ seen then dedupRows i seen rest
    else row :: dedupRows i (v :: seen) rest

/-- The pandas drop_duplicates operation restricted to a single subset
column, raising KeyError when the column is absent. -/
def drop_duplicates (df : DataFrame) (key : String) : Except PyError DataFrame :=
  match colIndex? df.cols key with
  | none => Except.error PyError.keyError
  | some i => Except.ok { df with rows := dedupRows i [] df.rows }

/-- merge_dataframes of neighborhoods_generation.py, lines 83 to 102:
left-merge, drop the right key columns, optionally rename the last column,
then de-duplicate on the neighborhood column. -/
def merge_dataframes (l r : DataFrame) (left_on right_on : List String)
    (suf : String × String) (rename_last_col : Option String) :
    Except PyError DataFrame :=
  match pdMerge How.left l r left_on right_on suf with
  | Except.error e => Except.error e
  | Except.ok m =>
    match dropColumns m right_on with
    | Except.error e => Except.error e
    | Except.ok m2 => drop_duplicates (renameLast m2 rename_last_col) "neighborhood"

/-- The boundary join of line 305 of neighborhoods_generation.py: a merge
with default strategy (inner) of the neighborhood records with the
dissolved boundaries, on id equal to nh_id, with default suffixes. -/
def boundary_merge (records union_gdf : DataFrame) : Except PyError DataFrame :=
  pdMerge How.inner records union_gdf ["id"] ["nh_id"] ("_x", "_y")

/-- An IEEE style float value as pandas stores metric columns: an exact
rational number, NaN (the pandas missing value), or a signed infinity. -/
inductive PFloat
  | num (x : ℚ)
  | nan
  | inf
  | ninf
deriving DecidableEq

/-- Float division with numpy semantics: NaN propagates; a nonzero number
divided by zero gives a signed infinity; zero divided by zero gives NaN. -/
def PFloat.div : PFloat → PFloat → PFloat
  | PFloat.nan, _ => PFloat.nan
  | _, PFloat.nan => PFloat.nan
  | PFloat.num a, PFloat.num b =>
    if b ≠ 0 then PFloat.num (a / b)
    else if 0 < a then PFloat.inf
    else if a < 0 then PFloat.ninf
    else PFloat.nan
  | PFloat.num _, PFloat.inf => PFloat.num 0
  | PFloat.num _, PFloat.ninf => PFloat.num 0
  | PFloat.inf, PFloat.num b => if 0 ≤ b then PFloat.inf else PFloat.ninf
  | PFloat.ninf, PFloat.num b => if 0 ≤ b then PFloat.ninf else PFloat.inf
  | PFloat.inf, PFloat.inf => PFloat.nan
  | PFloat.inf, PFloat.ninf => PFloat.nan
  | PFloat.ninf, PFloat.inf => PFloat.nan
  | PFloat.ninf, PFloat.ninf => PFloat.nan

/-- Float multiplication with numpy semantics: NaN propagates; an infinity
times a nonzero number keeps or flips its sign; an infinity times zero is NaN. -/
def PFloat.mul : PFloat → PFloat → PFloat
  | PFloat.nan, _ => PFloat.nan
  | _, PFloat.nan => PFloat.nan
  | PFloat.num a, PFloat.num b => PFloat.num (a * b)
  | PFloat.inf, PFloat.num b => if 0 < b then PFloat.inf else if b < 0 then PFloat.ninf else PFloat.nan
  | PFloat.num b, PFloat.inf => if 0 < b then PFloat.inf else if b < 0 then PFloat.ninf else PFloat.nan
  | PFloat.ninf, PFloat.num b => if 0 < b then PFloat.ninf else if b < 0 then PFloat.inf else PFloat.nan
  | PFloat.num b, PFloat.ninf => if 0 < b then PFloat.ninf else if b < 0 then PFloat.inf else PFloat.nan
  | PFloat.inf, PFloat.inf => PFloat.inf
  | PFloat.ninf, PFloat.ninf => PFloat.inf
  | PFloat.inf, PFloat.ninf => PFloat.ninf
  | PFloat.ninf, PFloat.inf => PFloat.ninf

/-- The rent-to-value derivation of line 274 of neighborhoods_generation.py:
city_RTV equals city_ZORI divided by city_ZHVI, times 100, with pandas float
column arithmetic. -/
def city_RTV (city_ZORI city_ZHVI : PFloat) : PFloat :=
  (city_ZORI.div city_ZHVI).mul (PFloat.num 100)

/-- The area derivation of line 328 of neighborhoods_generation.py: the
planar area of the boundary (reprojected to EPSG 3857, in square meters)
divided by the literal constant 2.59e+6. -/
def area_sq_mi (planarArea : ℚ) : ℚ :=
  planarArea / 2590000

/-- Modelled from the spec: the spec formula for the area derivation, the
planar area divided by exactly 2589988.110336 square meters per square mile. -/
def areaSqMiSpec (planarArea : ℚ) : ℚ :=
  planarArea / (2589988110336 / 1000000)

/-- The spec formula shape for the area derivation with an arbitrary
divisor constant. -/
def areaSqMiFormula (divisor planarArea : ℚ) : ℚ :=
  planarArea / divisor

/-- A cell of the population column as it reaches lines 331 to 334: either
a text value scraped from the walkability site or the missing value NaN
(a neighborhood with no walkability match after the left join). -/
inductive PopCell
  | s (v : String)
  | na
deriving DecidableEq

/-- Removal of every comma from a string, as the string replace of line 331. -/
def stripCommas (t : String) : String :=
  String.mk (t.data.filter (fun c => c ≠ ','))

/-- The pandas string accessor replace of line 331 applied to one cell:
strings lose their commas, a non-string value becomes NaN. -/
def strSeriesReplaceComma : PopCell → PopCell
  | PopCell.s v => PopCell.s (stripCommas v)
  | PopCell.na => PopCell.na

/-- Value of a digit list read in base ten. -/
def digitsVal (cs : List Char) : Nat :=
  cs.foldl (fun n c => n * 10 + (c.toNat - 48)) 0

/-- Parse a nonempty all-digit character list, else fail. -/
def pyIntDigits : List Char → Option Nat
  | [] => none
  | cs => if cs.all (fun c => c.isDigit) then some (digitsVal cs) else none

/-- Removal of leading and trailing whitespace from a character list. -/
def trimChars (cs : List Char) : List Char :=
  (((cs.dropWhile Char.isWhitespace).reverse).dropWhile Char.isWhitespace).reverse

/-- The Python int builtin applied to a string: surrounding whitespace is
stripped, an optional sign is allowed, then a nonempty digit sequence;
any other shape (the empty string included) raises ValueError, here none. -/
def pyIntOfString (t : String) : Option Int :=
  match trimChars t.data with
  | [] => none
  | c :: rest =>
    if c = '+' then (pyIntDigits rest).map (fun n => (n : Int))
    else if c = '-' then (pyIntDigits rest).map (fun n => -(n : Int))
    else (pyIntDigits (c :: rest)).map (fun n => (n : Int))

/-- The apply of line 334 on one cell: a string is passed to the Python int
builtin (ValueError aborts the run), any other value is kept as is. -/
def intApply : PopCell → Except PyError (Option Int)
  | PopCell.na => Except.ok none
  | PopCell.s v =>
    match pyIntOfString v with
    | some n => Except.ok (some n)
    | none => Except.error PyError.valueError

/-- The population normalization of lines 331 to 334: strip commas with the
string accessor, then convert string cells with the Python int builtin. -/
def parsePopulation (c : PopCell) : Except PyError (Option Int) :=
  intApply (strSeriesReplaceComma c)

/-- The pandas idxmin function on a labelled series: the label of the first
entry attaining the minimum value, none on an empty series. -/
def idxmin {ι : Type} : List (ι × ℚ) → Option (ι × ℚ)
  | [] => none
  | p :: rest =>
    match idxmin rest with
    | none => some p
    | some q => some (if q.2 < p.2 then q else p)

/-- Minimum value of a labelled series. -/
def listMin {ι : Type} : List (ι × ℚ) → Option ℚ
  | [] => none
  | p :: rest =>
    match listMin rest with
    | none => some p.2
    | some m => some (min p.2 m)

/-- Specification side selection: the first entry of the series whose value
equals the series minimum. -/
def firstAtMin {ι : Type} (l : List (ι × ℚ)) : Option (ι × ℚ) :=
  match listMin l with
  | none => none
  | some m => l.find? (fun p => decide (p.2 = m))

/-- nearest_poly of neighborhoods_generation.py, lines 174 to 186: compute
the distance from every reference geometry to the query point and take the
idxmin label.  The planar distance function of the geometry library is a
parameter; an empty reference set raises (idxmin of an empty series is a
ValueError). -/
def nearest_poly {ι α P : Type} (point : P) (polygons : List (ι × α))
    (dist : α → P → ℚ) : Except PyError ι :=
  match idxmin (polygons.map (fun g => (g.1, dist g.2 point))) with
  | none => Except.error PyError.valueError
  | some p => Except.ok p.1

/-- Specification side nearest assignment: the label of the first reference
in iteration order attaining the minimum distance. -/
def nearestSpec {ι α P : Type} (point : P) (polygons : List (ι × α))
    (dist : α → P → ℚ) : Except PyError ι :=
  match firstAtMin (polygons.map (fun g => (g.1, dist g.2 point))) with
  | none => Except.error PyError.valueError
  | some p => Except.ok p.1

/-- A row of the neighborhood point frame as consumed by rename_nh_id: a
pandas index label, a point geometry, and the id column value. -/
structure PointRow (P : Type) where
  label : Nat
  geometry : P
  id : Int

/-- rename_nh_id of neighborhoods_generation.py, lines 189 to 203: compute
the distance from every neighborhood point to the centroid of the unit row,
take the idxmin label, and look up the id column at that label. -/
def rename_nh_id {P : Type} (dist : P → P → ℚ) (centroid : P)
    (point_gdf : List (PointRow P)) : Except PyError Int :=
  match idxmin (point_gdf.map (fun r => (r.label, dist r.geometry centroid))) with
  | none => Except.error PyError.valueError
  | some p =>
    match point_gdf.find? (fun r => decide (r.label = p.1)) with
    | some r => Except.ok r.id
    | none => Except.error PyError.keyError

/-- The parsed payload of one census query: its feature collection, features
abstracted to identifiers. -/
structure CensusData where
  features : List Nat
deriving DecidableEq

/-- Outcome of one HTTP request to the census service: a parsed payload, or
a requests exception caught by the try block. -/
inductive ReqOutcome
  | success (d : CensusData)
  | failure
deriving DecidableEq

/-- Subscripting the features key of the optional payload, as the print of
line 142 does: subscripting None raises TypeError. -/
def featuresOf : Option CensusData → Except PyError (List Nat)
  | none => Except.error PyError.typeError
  | some d => Except.ok d.features

/-- query_census_by_geography of neighborhoods_generation.py, lines 106 to
143: the try block yields the payload or None on a caught request error;
the print of line 142 then evaluates the length of the features of that
value unconditionally, so the None case raises TypeError. -/
def query_census_by_geography (resp : ReqOutcome) : Except PyError (Option CensusData) :=
  let data : Option CensusData :=
    match resp with
    | ReqOutcome.success d => some d
    | ReqOutcome.failure => none
  match featuresOf data with
  | Except.error e => Except.error e
  | Except.ok _ => Except.ok data

/-- The county loop of split_counties_and_query_census: the accumulator is
the census_json dict, none standing for the initial empty dict; a non-None
payload either becomes the accumulator or has its features extended onto it. -/
def splitCountiesLoop (acc : Option CensusData) :
    List ReqOutcome → Except PyError (Option CensusData)
  | [] => Except.ok acc
  | o :: rest =>
    match query_census_by_geography o with
    | Except.error e => Except.error e
    | Except.ok none => splitCountiesLoop acc rest
    | Except.ok (some d) =>
      match acc with
      | none => splitCountiesLoop (some d) rest
      | some a => splitCountiesLoop (some { features := a.features ++ d.features }) rest

/-- split_counties_and_query_census of neighborhoods_generation.py, lines
146 to 170: run the county loop from the empty dict, then the print of line
168 subscripts the features key of the result (KeyError on the empty dict). -/
def split_counties_and_query_census (outs : List ReqOutcome) : Except PyError CensusData :=
  match splitCountiesLoop none outs with
  | Except.error e => Except.error e
  | Except.ok none => Except.error PyError.keyError
  | Except.ok (some d) => Except.ok d

/-- A GeoDataFrame of group keys and geometries together with its
coordinate reference system code. -/
structure PolyGdf (γ : Type) where
  rows : List (Int × γ)
  crs : Nat

/-- The shapely unary union of a group of geometries, folded with the
binary union operation of the geometry library; none on an empty group
(never reached from a groupby group). -/
def unary_union {γ : Type} (u : γ → γ → γ) : List γ → Option γ
  | [] => none
  | g :: gs => some (gs.foldl u g)

/-- group_and_union of neighborhoods_generation.py, lines 207 to 220:
group by nh_id (the pandas groupby iterates groups in ascending sorted key
order), union each group, and rebuild a GeoDataFrame carrying the crs of
the input. -/
def group_and_union {γ : Type} (u : γ → γ → γ) (poly_gdf : PolyGdf γ) :
    PolyGdf (Option γ) :=
  let keys := ((poly_gdf.rows.map Prod.fst).dedup).insertionSort (fun a b => a ≤ b)
  { rows := keys.map (fun name =>
      (name, unary_union u ((poly_gdf.rows.filter (fun r => decide (r.1 = name))).map Prod.snd))),
    crs := poly_gdf.crs }

/-- Claim C2, counterexample: a record with rent index 100 and value index
zero derives a rent-to-value ratio of positive infinity, not a missing
value, so the claim that the ratio is missing whenever the value index is
zero is false on the code. -/
theorem c2_counterexample :
    city_RTV (PFloat.num 100) (PFloat.num 0) = PFloat.inf ∧
    PFloat.inf ≠ PFloat.nan := by
  constructor
  · show (PFloat.div (PFloat.num 100) (PFloat.num 0)).mul (PFloat.num 100) = PFloat.inf
    norm_num [PFloat.div, PFloat.mul]
  · intro h
    exact PFloat.noConfusion h

/-- Claim C2, amended: the derived ratio equals rent divided by value times
100 when the value index is a nonzero number; it is missing when either
operand is missing and when both are zero; but a nonzero rent index over a
zero value index gives a signed infinity, not a missing value. -/
theorem c2_city_RTV_cases :
    (∀ r v : ℚ, v ≠ 0 → city_RTV (PFloat.num r) (PFloat.num v) = PFloat.num (r / v * 100)) ∧
    (∀ x : PFloat, city_RTV x PFloat.nan = PFloat.nan) ∧
    (∀ x : PFloat, city_RTV PFloat.nan x = PFloat.nan) ∧
    (∀ r : ℚ, 0 < r → city_RTV (PFloat.num r) (PFloat.num 0) = PFloat.inf) ∧
    (∀ r : ℚ, r < 0 → city_RTV (PFloat.num r) (PFloat.num 0) = PFloat.ninf) ∧
    city_RTV (PFloat.num 0) (PFloat.num 0) = PFloat.nan := by
  refine ⟨?_, ?_, ?_, ?_, ?_, ?_⟩
  · intro r v hv
    simp [city_RTV, PFloat.div, PFloat.mul, hv]
  · intro x
    cases x <;> rfl
  · intro x
    cases x <;> rfl
  · intro r hr
    have : ¬ (0 : ℚ) ≠ 0 := by norm_num
    simp [city_RTV, PFloat.div, PFloat.mul, this, hr]
  · intro r hr
    have h1 : ¬ (0 : ℚ) < r := not_lt.mpr (le_of_lt hr)
    simp [city_RTV, PFloat.div, PFloat.mul, h1, hr]
  · norm_num [city_RTV, PFloat.div, PFloat.mul]

/-- Witness for the amended claim C2 at concrete inputs. -/
theorem c2_witness :
    (200 : ℚ) ≠ 0 ∧ city_RTV (PFloat.num 100) (PFloat.num 200) = PFloat.num (100 / 200 * 100) ∧
    (0 : ℚ) < 1 ∧ city_RTV (PFloat.num 1) (PFloat.num 0) = PFloat.inf :=
  ⟨by norm_num, c2_city_RTV_cases.1 100 200 (by norm_num), by norm_num,
    c2_city_RTV_cases.2.2.2.1 1 (by norm_num)⟩

/-- Claim C3, counterexample: at a boundary of planar area 2590000 square
meters the code derives exactly one square mile, while the spec formula
with divisor 2589988.110336 does not, so the stated divisor is false on the
code (line 328 divides by the literal 2.59e+6). -/
theorem c3_counterexample :
    area_sq_mi 2590000 = 1 ∧ area_sq_mi 2590000 ≠ areaSqMiSpec 2590000 := by
  constructor
  · norm_num [area_sq_mi]
  · norm_num [area_sq_mi, areaSqMiSpec]

/-- Claim C3, amended: the derived area in square miles is the planar area
of the boundary (the code reprojects to EPSG 3857 before taking the area)
divided by the rounded constant 2590000, so multiplying back by 2590000
recovers the planar area exactly. -/
theorem c3_area_constant :
    ∀ a : ℚ, area_sq_mi a = areaSqMiFormula 2590000 a ∧ area_sq_mi a * 2590000 = a := by
  intro a
  constructor
  · rfl
  · rw [area_sq_mi, div_mul_cancel₀]
    norm_num

/-- Claim C4, counterexample: an empty string cell in the population column
raises ValueError in the int conversion of line 334 and aborts the run,
instead of remaining missing as claimed. -/
theorem c4_counterexample :
    parsePopulation (PopCell.s "") = Except.error PyError.valueError := by decide

/-- Claim C4, amended: a text population with thousands separators parses
to the corresponding integer and a missing value stays missing, but a
string whose comma-stripped form is not an integer literal (the empty
string included) raises ValueError and aborts the run; a string cell is
never coerced to a missing value or to a fabricated number. -/
theorem c4_population_parsing :
    parsePopulation (PopCell.s "12,345") = Except.ok (some 12345) ∧
    parsePopulation PopCell.na = Except.ok none ∧
    (∀ v n, pyIntOfString (stripCommas v) = some n →
      parsePopulation (PopCell.s v) = Except.ok (some n)) ∧
    (∀ v, pyIntOfString (stripCommas v) = none →
      parsePopulation (PopCell.s v) = Except.error PyError.valueError) ∧
    (∀ v, parsePopulation (PopCell.s v) ≠ Except.ok none) := by
  refine ⟨by decide, rfl, ?_, ?_, ?_⟩
  · intro v n h
    simp [parsePopulation, strSeriesReplaceComma, intApply, h]
  · intro v h
    simp [parsePopulation, strSeriesReplaceComma, intApply, h]
  · intro v
    simp only [parsePopulation, strSeriesReplaceComma, intApply]
    cases hv : pyIntOfString (stripCommas v) <;> simp

/-- Witness for the amended claim C4 at concrete inputs. -/
theorem c4_witness :
    pyIntOfString (stripCommas "1,234") = some 1234 ∧
    parsePopulation (PopCell.s "1,234") = Except.ok (some 1234) ∧
    pyIntOfString (stripCommas "abc") = none ∧
    parsePopulation (PopCell.s "abc") = Except.error PyError.valueError :=
  ⟨by decide, c4_population_parsing.2.2.1 "1,234" 1234 (by decide), by decide,
    c4_population_parsing.2.2.2.1 "abc" (by decide)⟩

/-- idxmin of the empty series only: the selection is none exactly on the
empty series. -/
theorem idxmin_eq_none_iff {ι : Type} : ∀ l : List (ι × ℚ), idxmin l = none ↔ l = [] := by
  intro l
  cases l with
  | nil => simp [idxmin]
  | cons p rest =>
    simp only [idxmin]
    cases idxmin rest <;> simp

/-- The entry selected by idxmin carries the minimum value of the series. -/
theorem idxmin_listMin {ι : Type} :
    ∀ (l : List (ι × ℚ)) (q : ι × ℚ), idxmin l = some q → listMin l = some q.2 := by
  intro l
  induction l with
  | nil => intro q h; simp [idxmin] at h
  | cons p rest ih =>
    intro q h
    simp only [idxmin] at h
    simp only [listMin]
    cases hr : idxmin rest with
    | none =>
      rw [hr] at h
      have hrest : rest = [] := (idxmin_eq_none_iff rest).mp hr
      subst hrest
      simp only [listMin]
      simpa using congrArg (Option.map Prod.snd) h
    | some q' =>
      rw [hr] at h
      rw [ih q' hr]
      have hq : q = if q'.2 < p.2 then q' else p := (Option.some.inj h).symm
      by_cases hlt : q'.2 < p.2
      · rw [hq, if_pos hlt]
        show some (min p.2 q'.2) = some q'.2
        rw [min_eq_right (le_of_lt hlt)]
      · rw [hq, if_neg hlt]
        show some (min p.2 q'.2) = some p.2
        rw [min_eq_left (le_of_not_lt hlt)]

/-- idxmin agrees with the specification selection: it returns the first
entry of the series attaining the minimum value. -/
theorem idxmin_eq_firstAtMin {ι : Type} : ∀ l : List (ι × ℚ), idxmin l = firstAtMin l := by
  intro l
  induction l with
  | nil => rfl
  | cons p rest ih =>
    simp only [idxmin]
    cases hr : idxmin rest with
    | none =>
      have hrest : rest = [] := (idxmin_eq_none_iff rest).mp hr
      subst hrest
      simp [firstAtMin, listMin, List.find?]
    | some q =>
      have hmin : listMin rest = some q.2 := idxmin_listMin rest q hr
      have hfind : rest.find? (fun x => decide (x.2 = q.2)) = some q := by
        have h2 := ih.symm
        rw [hr] at h2
        simpa [firstAtMin, hmin] using h2
      simp only [firstAtMin, listMin, hmin]
      by_cases hlt : q.2 < p.2
      · rw [if_pos hlt, min_eq_right (le_of_lt hlt)]
        rw [List.find?_cons_of_neg, hfind]
        simp [ne_of_gt hlt]
      · rw [if_neg hlt, min_eq_left (le_of_not_lt hlt)]
        rw [List.find?_cons_of_pos]
        simp

/-- Claim C5 (confirmed): nearest_poly equals the specification selection
nearestSpec, so whenever several references are at the exact minimum planar
distance to the query point, the reference returned is the one that occurs
first in the iteration order of the reference set (idxmin keeps the first
occurrence of the minimum). -/
theorem c5_nearest_first_at_min {ι α P : Type} :
    ∀ (point : P) (polygons : List (ι × α)) (dist : α → P → ℚ),
      nearest_poly point polygons dist = nearestSpec point polygons dist := by
  intro point polygons dist
  unfold nearest_poly nearestSpec
  rw [idxmin_eq_firstAtMin]

/-- Claim C6 (confirmed): with an empty reference geometry set, both
nearest-assignment functions fail (the idxmin of an empty distance series
raises) for every query point; no default reference identifier is returned. -/
theorem c6_empty_reference_fails :
    (∀ {ι α P : Type} (point : P) (dist : α → P → ℚ),
      nearest_poly (ι := ι) (α := α) point [] dist = Except.error PyError.valueError) ∧
    (∀ {P : Type} (dist : P → P → ℚ) (centroid : P),
      rename_nh_id dist centroid [] = Except.error PyError.valueError) :=
  ⟨fun _ _ => rfl, fun _ _ => rfl⟩

/-- Claim C7 (code bug): a county whose census request fails is caught by
the except block, which sets the payload to None, but the print statement
of line 142 then subscripts None and raises TypeError, so one failing
county aborts the whole run instead of contributing an empty feature set
while the remaining counties proceed. -/
theorem c7_failed_county_aborts :
    query_census_by_geography ReqOutcome.failure = Except.error PyError.typeError ∧
    split_counties_and_query_census
        [ReqOutcome.success { features := [1, 2] }, ReqOutcome.failure]
      = Except.error PyError.typeError ∧
    split_counties_and_query_census [ReqOutcome.success { features := [1, 2] }]
      = Except.ok { features := [1, 2] } :=
  ⟨rfl, rfl, rfl⟩

/-- Claim C10 (confirmed): the dissolve produces one row per distinct group
identifier, in ascending sorted order of the identifier, and the output
frame carries the coordinate reference system of the input frame. -/
theorem c10_dissolve_sorted_unique_crs {γ : Type} (u : γ → γ → γ) (gdf : PolyGdf γ)
    (_hne : gdf.rows ≠ []) :
    (group_and_union u gdf).crs = gdf.crs ∧
    ((group_and_union u gdf).rows.map Prod.fst).Sorted (fun a b => a ≤ b) ∧
    ((group_and_union u gdf).rows.map Prod.fst).Nodup ∧
    (∀ k : Int,
      k ∈ (group_and_union u gdf).rows.map Prod.fst ↔ k ∈ gdf.rows.map Prod.fst) := by
  have hkeys : (group_and_union u gdf).rows.map Prod.fst
      = ((gdf.rows.map Prod.fst).dedup).insertionSort (fun a b => a ≤ b) := by
    simp only [group_and_union, List.map_map]
    exact List.map_id' _
  refine ⟨rfl, ?_, ?_, ?_⟩
  · rw [hkeys]
    exact List.sorted_insertionSort (fun a b => a ≤ b) _
  · rw [hkeys]
    exact (List.perm_insertionSort (fun a b => a ≤ b) _).nodup_iff.mpr
      (List.nodup_dedup _)
  · intro k
    rw [hkeys]
    rw [(List.perm_insertionSort (fun a b => a ≤ b) _).mem_iff]
    exact List.mem_dedup

/-- Witness for claim C10 at a concrete input with a repeated group key. -/
theorem c10_witness :
    (group_and_union Nat.add { rows := [(2, 5), (1, 7), (2, 9)], crs := 3857 }).crs = 3857 ∧
    ((group_and_union Nat.add
        { rows := [(2, 5), (1, 7), (2, 9)], crs := 3857 }).rows.map Prod.fst).Sorted
      (fun a b => a ≤ b) ∧
    ((group_and_union Nat.add
        { rows := [(2, 5), (1, 7), (2, 9)], crs := 3857 }).rows.map Prod.fst).Nodup ∧
    ((2 : Int) ∈ (group_and_union Nat.add
        { rows := [(2, 5), (1, 7), (2, 9)], crs := 3857 }).rows.map Prod.fst ↔
      (2 : Int) ∈ ([(2, 5), (1, 7), (2, 9)] : List (Int × Nat)).map Prod.fst) :=
  have H := c10_dissolve_sorted_unique_crs Nat.add
    { rows := [(2, 5), (1, 7), (2, 9)], crs := 3857 } (by simp)
  ⟨H.1, H.2.1, H.2.2.1, H.2.2.2 2⟩

/-- A column lookup that succeeds implies membership of the label. -/
theorem colIndex?_some_mem {l : List String} {t : String} {i : Nat}
    (h : colIndex? l t = some i) : t ∈ l := by
  induction l generalizing i with
  | nil => simp [colIndex?] at h
  | cons c cs ih =>
    simp only [colIndex?] at h
    by_cases hc : c = t
    · exact hc ▸ List.mem_cons_self c cs
    · rw [if_neg hc] at h
      cases hcs : colIndex? cs t with
      | none => rw [hcs] at h; simp at h
      | some j => exact List.mem_cons_of_mem c (ih hcs)

/-- A label absent from every element has no column position. -/
theorem colIndex?_eq_none_of {l : List String} {t : String}
    (h : ∀ x ∈ l, x ≠ t) : colIndex? l t = none := by
  induction l with
  | nil => rfl
  | cons c cs ih =>
    simp only [colIndex?]
    rw [if_neg (h c (List.mem_cons_self c cs))]
    rw [ih (fun x hx => h x (List.mem_cons_of_mem c hx))]
    rfl

/-- The only error the merge operation raises is KeyError. -/
theorem pdMerge_error_eq {how : How} {l r : DataFrame} {lo ro : List String}
    {s : String × String} {e : PyError}
    (h : pdMerge how l r lo ro s = Except.error e) : e = PyError.keyError := by
  unfold pdMerge at h
  split at h
  · exact Except.noConfusion h
  · exact (Except.error.inj h).symm

/-- The only error the column-drop operation raises is KeyError. -/
theorem dropColumns_error_eq {df : DataFrame} {cs : List String} {e : PyError}
    (h : dropColumns df cs = Except.error e) : e = PyError.keyError := by
  unfold dropColumns at h
  split at h
  · exact Except.noConfusion h
  · exact (Except.error.inj h).symm

/-- After a successful column drop, every dropped label has no position in
the remaining columns. -/
theorem dropColumns_key_gone {df m : DataFrame} {cs : List String}
    (h : dropColumns df cs = Except.ok m) :
    ∀ t ∈ cs, colIndex? m.cols t = none := by
  intro t ht
  unfold dropColumns at h
  split at h
  · have hm := Except.ok.inj h
    apply colIndex?_eq_none_of
    intro x hx
    rw [← hm] at hx
    have hx2 := List.of_mem_filter hx
    intro hxt
    exact (of_decide_eq_true hx2) (hxt ▸ ht)
  · exact Except.noConfusion h

/-- Splitting the length of a flatMap whose pieces are empty or singleton
sized according to a predicate. -/
theorem length_flatMap_eq_length_filter {α β : Type} (L : List α) (f : α → List β)
    (p : α → Bool) (h : ∀ a ∈ L, (f a).length = if p a = true then 1 else 0) :
    (L.flatMap f).length = (L.filter p).length := by
  induction L with
  | nil => rfl
  | cons a t ih =>
    rw [List.flatMap_cons, List.length_append, List.filter_cons]
    rw [h a (List.mem_cons_self a t)]
    have ht := ih (fun x hx => h x (List.mem_cons_of_mem a hx))
    by_cases hp : p a = true
    · rw [if_pos hp, if_pos hp, List.length_cons, ht]
      omega
    · rw [if_neg hp, if_neg hp, ht]
      omega

/-- Claim C1, counterexample: a neighborhood record with no matching
boundary is silently dropped by the inner boundary merge of line 305; the
merge succeeds with an empty result instead of failing with an error. -/
theorem c1_counterexample :
    boundary_merge (DataFrame.mk ["id", "neighborhood"] [[Cell.int 1, Cell.str "A"]])
      (DataFrame.mk ["nh_id", "geometry"] [])
      = Except.ok (DataFrame.mk ["id", "neighborhood", "nh_id", "geometry"] []) := by
  decide

/-- Claim C1, amended: the boundary join is an inner merge on id equal to
nh_id; when each record matches at most one boundary (the dissolve emits
one boundary per identifier), the merge succeeds and keeps exactly the
records that have a matching boundary, one output row each, while records
without a boundary and boundaries without a record are silently dropped
without any error. -/
theorem c1_inner_join_counts (records bnd : DataFrame)
    (hid : "id" ∈ records.cols) (hnh : "nh_id" ∈ bnd.cols)
    (huniq : ∀ lrow ∈ records.rows,
      (bnd.rows.filter
        (fun rrow => rowsKeyMatch records bnd ["id"] ["nh_id"] lrow rrow)).length ≤ 1) :
    ∃ m, boundary_merge records bnd = Except.ok m ∧
      m.rows.length
        = (records.rows.filter (fun lrow =>
            bnd.rows.any
              (fun rrow => rowsKeyMatch records bnd ["id"] ["nh_id"] lrow rrow))).length := by
  have hcond : (∀ c ∈ ["id"], c ∈ records.cols) ∧ (∀ c ∈ ["nh_id"], c ∈ bnd.cols) := by
    constructor <;> simp [hid, hnh]
  unfold boundary_merge pdMerge
  rw [if_pos hcond]
  refine ⟨_, rfl, ?_⟩
  apply length_flatMap_eq_length_filter
  intro lrow hmem
  rw [List.length_map]
  cases hms : bnd.rows.filter
      (fun rrow => rowsKeyMatch records bnd ["id"] ["nh_id"] lrow rrow) with
  | nil =>
    have hnone : ∀ rrow ∈ bnd.rows,
        ¬ rowsKeyMatch records bnd ["id"] ["nh_id"] lrow rrow = true := by
      intro rrow hr
      exact List.filter_eq_nil_iff.mp hms rrow hr
    rw [if_neg]
    · simp
    · simp only [List.any_eq_true]
      rintro ⟨x, hxmem, hxp⟩
      exact hnone x hxmem hxp
  | cons b bs =>
    have hone := huniq lrow hmem
    rw [hms] at hone
    simp only [List.length_cons] at hone
    have hbs : bs.length = 0 := by omega
    have hbmem : b ∈ bnd.rows ∧
        rowsKeyMatch records bnd ["id"] ["nh_id"] lrow b = true := by
      have : b ∈ bnd.rows.filter
          (fun rrow => rowsKeyMatch records bnd ["id"] ["nh_id"] lrow rrow) := by
        rw [hms]; exact List.mem_cons_self b bs
      exact ⟨List.mem_of_mem_filter this, List.of_mem_filter this⟩
    rw [if_pos]
    · simp [hbs]
    · exact List.any_eq_true.mpr ⟨b, hbmem.1, hbmem.2⟩

/-- Witness for the amended claim C1: of two records, only the one with a
matching boundary survives the inner merge. -/
theorem c1_witness :
    ∃ m, boundary_merge
        (DataFrame.mk ["id", "neighborhood"]
          [[Cell.int 1, Cell.str "A"], [Cell.int 2, Cell.str "B"]])
        (DataFrame.mk ["nh_id", "geometry"] [[Cell.int 1, Cell.str "poly1"]])
      = Except.ok m ∧
      m.rows.length
        = ((DataFrame.mk ["id", "neighborhood"]
              [[Cell.int 1, Cell.str "A"], [Cell.int 2, Cell.str "B"]]).rows.filter
            (fun lrow =>
              (DataFrame.mk ["nh_id", "geometry"] [[Cell.int 1, Cell.str "poly1"]]).rows.any
                (fun rrow => rowsKeyMatch
                  (DataFrame.mk ["id", "neighborhood"]
                    [[Cell.int 1, Cell.str "A"], [Cell.int 2, Cell.str "B"]])
                  (DataFrame.mk ["nh_id", "geometry"] [[Cell.int 1, Cell.str "poly1"]])
                  ["id"] ["nh_id"] lrow rrow))).length :=
  c1_inner_join_counts
    (DataFrame.mk ["id", "neighborhood"]
      [[Cell.int 1, Cell.str "A"], [Cell.int 2, Cell.str "B"]])
    (DataFrame.mk ["nh_id", "geometry"] [[Cell.int 1, Cell.str "poly1"]])
    (by decide) (by decide) (by decide)

/-- Claim C8, counterexample: merging a one-row relation with unique
neighborhood key with itself on that key does not reproduce the relation;
it raises KeyError, because the coalesced key column is removed by the
right-key drop and the subsequent de-duplication on the neighborhood
column cannot find it. -/
theorem c8_counterexample :
    merge_dataframes (DataFrame.mk ["neighborhood", "v"] [[Cell.str "x", Cell.int 1]])
      (DataFrame.mk ["neighborhood", "v"] [[Cell.str "x", Cell.int 1]])
      ["neighborhood"] ["neighborhood"] ("_left", "_right") none
      = Except.error PyError.keyError := by
  decide

/-- Claim C8, amended: for every relation, merging it with itself through
merge_dataframes on the neighborhood key fails with KeyError (the single
coalesced key column is dropped as the right key, so the de-duplication on
the neighborhood column raises; when the key column is absent the merge
itself raises); the join engine never reproduces the relation. -/
theorem c8_self_merge_keyerror (df : DataFrame) :
    merge_dataframes df df ["neighborhood"] ["neighborhood"] ("_left", "_right") none
      = Except.error PyError.keyError := by
  unfold merge_dataframes
  cases h1 : pdMerge How.left df df ["neighborhood"] ["neighborhood"] ("_left", "_right") with
  | error e =>
    rw [pdMerge_error_eq h1]
  | ok m =>
    show (match dropColumns m ["neighborhood"] with
        | Except.error e => Except.error e
        | Except.ok m2 => drop_duplicates (renameLast m2 none) "neighborhood")
      = Except.error PyError.keyError
    cases h2 : dropColumns m ["neighborhood"] with
    | error e =>
      rw [dropColumns_error_eq h2]
    | ok m2 =>
      show drop_duplicates m2 "neighborhood" = Except.error PyError.keyError
      have hnone : colIndex? m2.cols "neighborhood" = none :=
        dropColumns_key_gone h2 "neighborhood" (List.mem_singleton.mpr rfl)
      unfold drop_duplicates
      rw [hnone]

/-- Claim C9 (confirmed): whenever the join engine returns a merged
relation at all, that relation contains a column named neighborhood,
because the de-duplication step of merge_dataframes always runs on that
fixed column and raises KeyError when it is absent. -/
theorem c9_merged_has_neighborhood (l r : DataFrame) (left_on right_on : List String)
    (suf : String × String) (ren : Option String) (res : DataFrame)
    (h : merge_dataframes l r left_on right_on suf ren = Except.ok res) :
    "neighborhood" ∈ res.cols := by
  unfold merge_dataframes at h
  cases h1 : pdMerge How.left l r left_on right_on suf with
  | error e => rw [h1] at h; exact absurd h (by simp)
  | ok m =>
    rw [h1] at h
    change (match dropColumns m right_on with
        | Except.error e => Except.error e
        | Except.ok m2 => drop_duplicates (renameLast m2 ren) "neighborhood")
      = Except.ok res at h
    cases h2 : dropColumns m right_on with
    | error e => rw [h2] at h; exact absurd h (by simp)
    | ok m2 =>
      rw [h2] at h
      change drop_duplicates (renameLast m2 ren) "neighborhood" = Except.ok res at h
      unfold drop_duplicates at h
      cases h3 : colIndex? (renameLast m2 ren).cols "neighborhood" with
      | none => rw [h3] at h; exact absurd h (by simp)
      | some i =>
        rw [h3] at h
        change Except.ok
          { renameLast m2 ren with
            rows := dedupRows i [] (renameLast m2 ren).rows } = Except.ok res at h
        have hres := Except.ok.inj h
        rw [← hres]
        exact colIndex?_some_mem h3

/-- Witness for claim C9 at a concrete successful call of the join engine. -/
theorem c9_witness :
    "neighborhood" ∈ (DataFrame.mk ["neighborhood"] [[Cell.str "x"]]).cols :=
  c9_merged_has_neighborhood (DataFrame.mk ["neighborhood"] [[Cell.str "x"]])
    (DataFrame.mk ["rk"] []) ["neighborhood"] ["rk"] ("_l", "_r") none
    (DataFrame.mk ["neighborhood"] [[Cell.str "x"]]) (by decide)
